import Mathlib

/-!
Verification of the cosmic-wavs authorized-action signing pipeline.

This file is a shallow embedding of the core of the `anvdev/cosmic-wavs`
repository: the attribute parser and broadcast-response handler
(`script/cosmic-wavs/src/common.rs`), the smart-account transaction helpers
(`script/cosmic-wavs/src/wavs.rs`), and the burn-event processing pipeline of
the `cosmic-wavs-infusion` and `cosmic-wavs-demo-infusion` components
(`components/*/src/lib.rs`).

Bytes are modelled as `List Nat` (each element < 256 at every producer).
Machine integers are `Nat` with explicit `% 2^w` where the source can wrap.
Fallible Rust functions return `Except String α`; functions that can also
panic (via `expect`/indexing) return `RunResult α`, which has a distinguished
`panicked` constructor. Strings are byte-modelled by their character codes,
which coincides with UTF-8 on the ASCII data (bech32 addresses, token ids,
chain tags) this pipeline handles.

External collaborators are modelled as follows:
* `sha2::Sha256` is implemented in full (FIPS 180-4) as `sha256`;
* network responses (contract query result, simulated gas, broadcast code and
  raw log, account number) are oracle parameters of the pipeline functions,
  and the network calls the source makes are recorded in an `Eff` trace;
* the BLS12-381 sign / public-key primitives of `commonware_cryptography` are
  parameters (`BlsPrimitives`): no claim depends on the signature values,
  only on where signing happens; the key-import path (`hex::decode`, then
  `PrivateKey::decode`, then `Signer::from`) is modelled per the library's
  contract: decoding validates length and scalar range, and `from` succeeds
  on every decode-validated key (the repository's own test
  `script/cw-orch-wavs/src/tests/bls12_381.rs` relies on exactly this).
-/

namespace CosmicWavs

/-! ## Byte and string helpers -/

/-- Character-code bytes of a string; equals UTF-8 on ASCII input. -/
def strBytes (s : String) : List Nat :=
  s.data.map Char.toNat

/-- Big-endian bytes of a `u64`, as produced by `u64::to_be_bytes`. -/
def u64be (n : Nat) : List Nat :=
  [n >>> 56 % 256, n >>> 48 % 256, n >>> 40 % 256, n >>> 32 % 256,
   n >>> 24 % 256, n >>> 16 % 256, n >>> 8 % 256, n % 256]

/-- Big-endian bytes of a 32-bit word. -/
def u32be (n : Nat) : List Nat :=
  [n >>> 24 % 256, n >>> 16 % 256, n >>> 8 % 256, n % 256]

/-- Hex value of one character, as `hex::decode` accepts it
(digits are codes 48–57, `a`–`f` are 97–102, `A`–`F` are 65–70). -/
def hexVal (c : Char) : Option Nat :=
  let n := c.toNat
  if 48 ≤ n ∧ n ≤ 57 then some (n - 48)
  else if 97 ≤ n ∧ n ≤ 102 then some (n - 87)
  else if 65 ≤ n ∧ n ≤ 70 then some (n - 55)
  else none

/-- `hex::decode` over the characters of the input: pairs of hex digits;
an odd length or a non-hex character is an error. -/
def hexDecodeChars : List Char → Except String (List Nat)
  | [] => .ok []
  | [_] => .error "Odd number of digits"
  | c1 :: c2 :: rest =>
    match hexVal c1, hexVal c2 with
    | some h, some l =>
      match hexDecodeChars rest with
      | .ok bs => .ok ((h * 16 + l) :: bs)
      | .error e => .error e
    | _, _ => .error "Invalid character"

/-- `hex::decode` on a string. -/
def hexDecode (s : String) : Except String (List Nat) :=
  hexDecodeChars s.data

/-- Lowercase hex digit for a value < 16. -/
def hexDigit (n : Nat) : Char :=
  if n < 10 then Char.ofNat ('0'.toNat + n) else Char.ofNat ('a'.toNat + n - 10)

/-- `hex::encode`: lowercase hex of a byte list. -/
def hexEncode (bs : List Nat) : String :=
  String.mk (bs.foldr (fun b acc => hexDigit (b / 16 % 16) :: hexDigit (b % 16) :: acc) [])

/-- The standard base64 alphabet. -/
def b64Alphabet : List Char :=
  "ABCDEFGHIJKLMNOPQRSTUVWXYZabcdefghijklmnopqrstuvwxyz0123456789+/".data

/-- One base64 character. -/
def b64Char (n : Nat) : Char := b64Alphabet.getD n 'A'

/-- Base64 of a byte list, with `=` padding (`cosmwasm_std::to_base64`). -/
def toBase64Chars : List Nat → List Char
  | a :: b :: c :: rest =>
    let n := a * 65536 + b * 256 + c
    b64Char (n >>> 18 % 64) :: b64Char (n >>> 12 % 64) :: b64Char (n >>> 6 % 64) ::
      b64Char (n % 64) :: toBase64Chars rest
  | [a, b] =>
    let n := a * 65536 + b * 256
    [b64Char (n >>> 18 % 64), b64Char (n >>> 12 % 64), b64Char (n >>> 6 % 64), '=']
  | [a] =>
    let n := a * 65536
    [b64Char (n >>> 18 % 64), b64Char (n >>> 12 % 64), '=', '=']
  | [] => []

/-- `cosmwasm_std::to_base64` on bytes. -/
def to_base64 (bs : List Nat) : String := String.mk (toBase64Chars bs)

/-! ## SHA-256 (FIPS 180-4), as `sha2::Sha256::digest` computes it -/

/-- Truncate to 32 bits. -/
def w32 (n : Nat) : Nat := n % 4294967296

/-- 32-bit right rotation. -/
def rotr32 (x k : Nat) : Nat := w32 ((x >>> k) ||| (x <<< (32 - k)))

/-- SHA-256 `Ch`. -/
def shaCh (x y z : Nat) : Nat := (x &&& y) ^^^ ((x ^^^ 4294967295) &&& z)

/-- SHA-256 `Maj`. -/
def shaMaj (x y z : Nat) : Nat := (x &&& y) ^^^ (x &&& z) ^^^ (y &&& z)

/-- SHA-256 `Σ0`. -/
def shaBigSigma0 (x : Nat) : Nat := rotr32 x 2 ^^^ rotr32 x 13 ^^^ rotr32 x 22

/-- SHA-256 `Σ1`. -/
def shaBigSigma1 (x : Nat) : Nat := rotr32 x 6 ^^^ rotr32 x 11 ^^^ rotr32 x 25

/-- SHA-256 `σ0`. -/
def shaSmallSigma0 (x : Nat) : Nat := rotr32 x 7 ^^^ rotr32 x 18 ^^^ (x >>> 3)

/-- SHA-256 `σ1`. -/
def shaSmallSigma1 (x : Nat) : Nat := rotr32 x 17 ^^^ rotr32 x 19 ^^^ (x >>> 10)

/-- The 64 SHA-256 round constants (decimal). -/
def shaK : List Nat :=
  [1116352408, 1899447441, 3049323471, 3921009573, 961987163, 1508970993,
   2453635748, 2870763221, 3624381080, 310598401, 607225278, 1426881987,
   1925078388, 2162078206, 2614888103, 3248222580, 3835390401, 4022224774,
   264347078, 604807628, 770255983, 1249150122, 1555081692, 1996064986,
   2554220882, 2821834349, 2952996808, 3210313671, 3336571891, 3584528711,
   113926993, 338241895, 666307205, 773529912, 1294757372, 1396182291,
   1695183700, 1986661051, 2177026350, 2456956037, 2730485921, 2820302411,
   3259730800, 3345764771, 3516065817, 3600352804, 4094571909, 275423344,
   430227734, 506948616, 659060556, 883997877, 958139571, 1322822218,
   1537002063, 1747873779, 1955562222, 2024104815, 2227730452, 2361852424,
   2428436474, 2756734187, 3204031479, 3329325298]

/-- The SHA-256 working state: eight 32-bit words. -/
structure ShaState where
  a : Nat
  b : Nat
  c : Nat
  d : Nat
  e : Nat
  f : Nat
  g : Nat
  h : Nat
  deriving Repr, DecidableEq

/-- The SHA-256 initial hash value (decimal). -/
def shaH0 : ShaState :=
  ⟨1779033703, 3144134277, 1013904242, 2773480762,
   1359893119, 2600822924, 528734635, 1541459225⟩

/-- SHA-256 padding: append `0x80`, zeros to 56 mod 64, then the bit length. -/
def shaPad (msg : List Nat) : List Nat :=
  let l := msg.length
  let k := (119 - l % 64) % 64
  msg ++ 128 :: List.replicate k 0 ++ u64be (8 * l)

/-- Split into 64-byte blocks (the padded message length is a multiple of 64). -/
def chunks64Aux : Nat → List Nat → List (List Nat)
  | 0, _ => []
  | _, [] => []
  | fuel + 1, l => l.take 64 :: chunks64Aux fuel (l.drop 64)

/-- All 64-byte blocks of a byte list. -/
def chunks64 (l : List Nat) : List (List Nat) := chunks64Aux l.length l

/-- Big-endian 32-bit words of a byte list. -/
def bytesToWords : List Nat → List Nat
  | a :: b :: c :: d :: rest => (a * 16777216 + b * 65536 + c * 256 + d) :: bytesToWords rest
  | _ => []

/-- Message-schedule extension: append `count` further words. -/
def shaExtend : Nat → List Nat → List Nat
  | 0, ws => ws
  | count + 1, ws =>
    let i := ws.length
    let wNew := w32 (shaSmallSigma1 (ws.getD (i - 2) 0) + ws.getD (i - 7) 0 +
      shaSmallSigma0 (ws.getD (i - 15) 0) + ws.getD (i - 16) 0)
    shaExtend count (ws ++ [wNew])

/-- One SHA-256 compression round. -/
def shaRound (st : ShaState) (ki wi : Nat) : ShaState :=
  let t1 := w32 (st.h + shaBigSigma1 st.e + shaCh st.e st.f st.g + ki + wi)
  let t2 := w32 (shaBigSigma0 st.a + shaMaj st.a st.b st.c)
  ⟨w32 (t1 + t2), st.a, st.b, st.c, w32 (st.d + t1), st.e, st.f, st.g⟩

/-- Field-wise 32-bit addition of two states. -/
def shaAdd (x y : ShaState) : ShaState :=
  ⟨w32 (x.a + y.a), w32 (x.b + y.b), w32 (x.c + y.c), w32 (x.d + y.d),
   w32 (x.e + y.e), w32 (x.f + y.f), w32 (x.g + y.g), w32 (x.h + y.h)⟩

/-- Process one 64-byte block. -/
def shaBlock (st : ShaState) (block : List Nat) : ShaState :=
  let ws := shaExtend 48 (bytesToWords block)
  shaAdd st ((shaK.zip ws).foldl (fun s p => shaRound s p.1 p.2) st)

/-- SHA-256 digest of a byte list: 32 bytes. -/
def sha256 (msg : List Nat) : List Nat :=
  let fin := (chunks64 (shaPad msg)).foldl shaBlock shaH0
  u32be fin.a ++ u32be fin.b ++ u32be fin.c ++ u32be fin.d ++
    u32be fin.e ++ u32be fin.f ++ u32be fin.g ++ u32be fin.h

/-- A SHA-256 digest is always exactly 32 bytes. -/
theorem sha256_length (msg : List Nat) : (sha256 msg).length = 32 := by
  simp [sha256, u32be]

/-! ## JSON rendering, as `serde_json` / `cosmwasm_std::to_json_binary` emit it -/

/-- JSON string escaping of one character (quote, backslash, control chars),
dispatching on the character code: 34 is the quote, 92 the backslash, and
8, 9, 10, 12, 13 the short-escaped control characters. -/
def jsonEscapeChar (c : Char) : List Char :=
  let n := c.toNat
  if n = 34 then ['\\', '"']
  else if n = 92 then ['\\', '\\']
  else if n = 10 then ['\\', 'n']
  else if n = 9 then ['\\', 't']
  else if n = 13 then ['\\', 'r']
  else if n = 8 then ['\\', 'b']
  else if n = 12 then ['\\', 'f']
  else if n < 32 then ['\\', 'u', '0', '0', hexDigit (n / 16), hexDigit (n % 16)]
  else [c]

/-- A JSON string literal. -/
def jsonString (s : String) : String :=
  "\"" ++ String.mk (s.data.foldr (fun c acc => jsonEscapeChar c ++ acc) []) ++ "\""

/-- Comma-join a list of rendered JSON values. -/
def jsonJoin : List String → String
  | [] => ""
  | [x] => x
  | x :: xs => x ++ "," ++ jsonJoin xs

/-- A JSON array. -/
def jsonArray (xs : List String) : String := "[" ++ jsonJoin xs ++ "]"

/-- A JSON array of numbers, as serde renders a `Vec<u8>`. -/
def jsonNatList (ns : List Nat) : String := jsonArray (ns.map Nat.repr)

/-! ## Data model (cosmos-sdk-proto / layer-climb types used by the core) -/

/-- `prost_types::Any`: a type URL plus opaque encoded payload bytes. -/
structure Any where
  type_url : String
  value : List Nat
  deriving DecidableEq, Repr

/-- serde JSON of one `Any` (field order as declared: `type_url`, `value`). -/
def jsonOfAny (a : Any) : String :=
  "\x7b\"type_url\":" ++ jsonString a.type_url ++ ",\"value\":" ++ jsonNatList a.value ++ "\x7d"

/-- serde JSON of a `Vec<Any>`. -/
def jsonOfAnyList (l : List Any) : String := jsonArray (l.map jsonOfAny)

/-- `cosmwasm_std::to_json_binary(&Vec<Any>)` as bytes. -/
def to_json_binary_anys (l : List Any) : List Nat := strBytes (jsonOfAnyList l)

/-- `cosmos.base.v1beta1.Coin`. -/
structure Coin where
  denom : String
  amount : String
  deriving DecidableEq, Repr

/-- `cosmos.tx.v1beta1.SignerInfo` (mode_info is always `None` in this code,
so it is modelled as a unit option). -/
structure SignerInfo where
  public_key : Option Any
  mode_info : Option Unit
  sequence : Nat
  deriving DecidableEq, Repr

/-- `cosmos.tx.v1beta1.Fee`. -/
structure Fee where
  amount : List Coin
  gas_limit : Nat
  payer : String
  granter : String
  deriving DecidableEq, Repr

/-- `cosmos.tx.v1beta1.AuthInfo` (tip is always `None` here). -/
structure AuthInfo where
  signer_infos : List SignerInfo
  fee : Option Fee
  tip : Option Unit
  deriving DecidableEq, Repr

/-- `cosmos.tx.v1beta1.TxBody`. -/
structure TxBody where
  messages : List Any
  memo : String
  timeout_height : Nat
  extension_options : List Any
  non_critical_extension_options : List Any
  deriving DecidableEq, Repr

/-- `cosmos.tx.v1beta1.Tx`: the transaction envelope. -/
structure Tx where
  body : Option TxBody
  auth_info : Option AuthInfo
  signatures : List (List Nat)
  deriving DecidableEq, Repr

/-! ## Protobuf encoding (prost) for the one message the pipeline builds -/

/-- Protobuf varint bytes (fuelled; 10 bytes cover any `u64`). -/
def varintAux : Nat → Nat → List Nat
  | 0, _ => []
  | fuel + 1, n => if n < 128 then [n] else (128 + n % 128) :: varintAux fuel (n >>> 7)

/-- Protobuf varint of a natural number. -/
def varint (n : Nat) : List Nat := varintAux 10 n

/-- A length-delimited protobuf field, skipped when empty (prost semantics
for `string` / `bytes` fields at their default value). -/
def protoLenField (tag : Nat) (payload : List Nat) : List Nat :=
  if payload.isEmpty then []
  else varint (tag <<< 3 + 2) ++ varint payload.length ++ payload

/-- A length-delimited protobuf field that is always emitted (repeated
message elements). -/
def protoLenFieldAlways (tag : Nat) (payload : List Nat) : List Nat :=
  varint (tag <<< 3 + 2) ++ varint payload.length ++ payload

/-- prost encoding of a `Coin` (denom = 1, amount = 2). -/
def protoCoin (c : Coin) : List Nat :=
  protoLenField 1 (strBytes c.denom) ++ protoLenField 2 (strBytes c.amount)

/-- `cosmwasm.wasm.v1.MsgExecuteContract`. -/
structure MsgExecuteContract where
  sender : String
  contract : String
  msg : List Nat
  funds : List Coin
  deriving DecidableEq, Repr

/-- prost encoding of `MsgExecuteContract`
(sender = 1, contract = 2, msg = 3, funds = 5). -/
def protoMsgExecuteContract (m : MsgExecuteContract) : List Nat :=
  protoLenField 1 (strBytes m.sender) ++ protoLenField 2 (strBytes m.contract) ++
    protoLenField 3 m.msg ++
    m.funds.foldr (fun c acc => protoLenFieldAlways 5 (protoCoin c) ++ acc) []

/-- `Any::from_msg(&MsgExecuteContract { .. })`. -/
def anyFromMsgExecuteContract (m : MsgExecuteContract) : Any :=
  ⟨"/cosmwasm.wasm.v1.MsgExecuteContract", protoMsgExecuteContract m⟩

/-! ## `script/cosmic-wavs/src/common.rs` -/

/-- Decimal digit value of a character, if any (digit codes are 48–57). -/
def decDigit? (c : Char) : Option Nat :=
  let n := c.toNat
  if 48 ≤ n ∧ n ≤ 57 then some (n - 48) else none

/-- Accumulate the value of a digit string; `none` on any non-digit. -/
def digitsValAux : List Char → Nat → Option Nat
  | [], acc => some acc
  | c :: cs, acc =>
    match decDigit? c with
    | some d => digitsValAux cs (acc * 10 + d)
    | none => none

/-- `str::parse::<u64>`: optional leading `+`, then one or more decimal
digits, failing on any other character or on `u64` overflow. -/
def parseU64 (s : String) : Option Nat :=
  let cs := match s.data with
    | '+' :: rest => rest
    | l => l
  match cs with
  | [] => none
  | _ =>
    match digitsValAux cs 0 with
    | some n => if n < 18446744073709551616 then some n else none
    | none => none

/-- `parse_u64_attribute`: first match by key, then parse the value. -/
def parse_u64_attribute (attributes : List (String × String)) (key : String) :
    Except String Nat :=
  match attributes.find? (fun p => p.1 == key) with
  | none => .error ("Missing " ++ key ++ " attribute")
  | some p =>
    match parseU64 p.2 with
    | some n => .ok n
    | none => .error ("Failed to parse " ++ key ++ " attribute to u64")

/-- `parse_string_attribute`: first match by key; note the missing-attribute
error message is the hardcoded string from the source. -/
def parse_string_attribute (attributes : List (String × String)) (key : String) :
    Except String String :=
  match attributes.find? (fun p => p.1 == key) with
  | none => .error "Missing sender attribute"
  | some p => .ok p.2

/-- `handle_tx_response`: code 0 is success, any other code is a
`StdError::generic_err` carrying the code and raw log. -/
def handle_tx_response (code : Nat) (raw_log : String) : Except String Unit :=
  match code with
  | 0 => .ok ()
  | _ => .error ("Transaction failed with code " ++ Nat.repr code ++ ": " ++ raw_log)

/-! ## `script/cosmic-wavs/src/wavs.rs` and `smart_accounts.rs` -/

/-- The smart-account transaction extension type URL. -/
def TX_EXTENSION_TYPE : String := "/bitsong.smartaccount.v1beta1.TxExtension"

/-- `TxExtension`: which registered authenticator indices authorize the tx. -/
structure TxExtension where
  selected_authenticators : List Nat
  deriving DecidableEq, Repr

/-- `to_json_binary(&TxExtension { .. })` as bytes. -/
def to_json_binary_tx_extension (e : TxExtension) : List Nat :=
  strBytes ("\x7b\"selected_authenticators\":" ++ jsonNatList e.selected_authenticators ++ "\x7d")

/-- `form_wavs_tx`: assembles the final envelope from a body, the simulated
gas, the signer infos and the signatures; no validation of any kind is
performed (`gas_to_use * 2` wraps at `u64`). -/
def form_wavs_tx (tx_body : TxBody) (gas_to_use : Nat)
    (signer_infos : List SignerInfo) (signatures : List (List Nat)) :
    Except String Tx :=
  .ok { body := some tx_body
      , auth_info := some
          { signer_infos := signer_infos
          , fee := some
              { amount := [⟨"ubtsg", "40000"⟩]
              , gas_limit := gas_to_use * 2 % 18446744073709551616
              , payer := ""
              , granter := "" }
          , tip := none }
      , signatures := signatures }

/-- The BLS12-381 group order `r` (scalar field modulus). -/
def blsGroupOrder : Nat :=
  0x73eda753299d7d483339d80809a1d80553bda402fffe5bfeffffffff00000001

/-- Big-endian byte-list value. -/
def beBytesToNat (bs : List Nat) : Nat := bs.foldl (fun acc b => acc * 256 + b) 0

/-- A decoded (validated) BLS12-381 private key: a scalar in `[1, r-1]`. -/
structure BlsPrivateKey where
  scalar : Nat
  deriving DecidableEq, Repr

/-- `commonware` `PrivateKey::decode`, per the library contract: exactly 32
big-endian bytes encoding a nonzero scalar below the group order. -/
def blsPrivateKeyDecode (bs : List Nat) : Except String BlsPrivateKey :=
  if bs.length = 32 then
    let n := beBytesToNat bs
    if 0 < n ∧ n < blsGroupOrder then .ok ⟨n⟩
    else .error "Invalid BLS12-381 private key"
  else .error "Invalid BLS12-381 private key length"

/-- A `commonware` `Bls12381` signer holding an imported private key. -/
structure Bls12381 where
  sk : BlsPrivateKey
  deriving DecidableEq, Repr

/-- `Signer::from`: succeeds on every decode-validated key (see header). -/
def blsSignerFrom (k : BlsPrivateKey) : Option Bls12381 := some ⟨k⟩

/-- Outcome of a Rust computation that may return, error, or panic. -/
inductive RunResult (α : Type) where
  | ok (a : α)
  | error (e : String)
  | panicked (msg : String)
  deriving DecidableEq, Repr

/-- `get_smart_account`: hex-decode the encoded secret, decode the private
key, build the signer; the final `.expect("broken private key")` is the one
potential panic site. -/
def get_smart_account (wavs_bls_sk : String) : RunResult Bls12381 :=
  match hexDecode wavs_bls_sk with
  | .error e => .error e
  | .ok bytes =>
    match blsPrivateKeyDecode bytes with
    | .error e => .error e
    | .ok key =>
      match blsSignerFrom key with
      | some signer => .ok signer
      | none => .panicked "broken private key"

/-- The external BLS signing / public-key primitives, as parameters: the
pipeline claims do not depend on the value of a signature, only on whether
and where one is produced. -/
structure BlsPrimitives where
  sign : BlsPrivateKey → List Nat → List Nat
  pubkeyBytes : BlsPrivateKey → List Nat
  pubkeyStr : BlsPrivateKey → String

/-- `get_smart_acount_signer_info`: wraps a public key, no mode info,
sequence 0. -/
def get_smart_acount_signer_info (pk : List Nat) : SignerInfo :=
  { public_key := some ⟨"/cosmos.crypto.bls12_381.PubKey", pk⟩
  , mode_info := none
  , sequence := 0 }

/-- `form_smart_acccount_tx_body` (sic): the transaction body for the
authorized action set. -/
def form_smart_acccount_tx_body (current_height : Nat) (cosmic_wavs_actions : List Any)
    (selected_authenticators : List Nat) : Except String TxBody :=
  .ok { messages := cosmic_wavs_actions
      , memo := "Cosmic Wavs Account Action"
      , timeout_height := current_height + 100
      , extension_options := []
      , non_critical_extension_options :=
          [⟨TX_EXTENSION_TYPE, to_json_binary_tx_extension ⟨selected_authenticators⟩⟩] }

/-- The canonical digest of an action bundle:
`Sha256::digest(to_json_binary(&cosmic_wavs_actions))`. -/
def action_bundle_digest (cosmic_wavs_actions : List Any) : List Nat :=
  sha256 (to_json_binary_anys cosmic_wavs_actions)

/-- `form_smart_account_msg`: digest the bundle and BLS-sign the digest with
`namespace = None`. -/
def form_smart_account_msg (prims : BlsPrimitives) (imported_signer : Bls12381)
    (cosmic_wavs_actions : List Any) : Except String (List Nat × List Nat) :=
  let msg_digest := action_bundle_digest cosmic_wavs_actions
  let signature := prims.sign imported_signer.sk msg_digest
  .ok (msg_digest, signature)

/-! ## `components/cosmic-wavs-infusion/src/lib.rs` (and the demo variant) -/

/-- `cw_infusions::wavs::WavsRecordResponse`: one on-chain query result entry
(collection address and optional sanctioned count). -/
structure WavsRecordResponse where
  addr : String
  count : Option Nat
  deriving DecidableEq, Repr

/-- `cw_infusions::wavs::WavsBundle`: one infusion record to authorize. -/
structure WavsBundle where
  infuser : String
  nft_addr : String
  infused_ids : List String
  deriving DecidableEq, Repr

/-- serde JSON of one `WavsBundle` (declared field order). -/
def jsonOfWavsBundle (b : WavsBundle) : String :=
  "\x7b\"infuser\":" ++ jsonString b.infuser ++ ",\"nft_addr\":" ++ jsonString b.nft_addr ++
    ",\"infused_ids\":" ++ jsonArray (b.infused_ids.map jsonString) ++ "\x7d"

/-- `to_json_binary(&ExecuteMsg::WavsEntryPoint { infusions })` as bytes. -/
def to_json_binary_wavs_entry_point (infusions : List WavsBundle) : List Nat :=
  strBytes ("\x7b\"wavs_entry_point\":\x7b\"infusions\":" ++
    jsonArray (infusions.map jsonOfWavsBundle) ++ "\x7d\x7d")

/-- The summary artifact carried in a `ServiceResponse`. -/
structure WavsBlsCosmosActionAuth where
  pubkey_g2 : String
  base64_msg_hash : String
  msg : List Nat
  signature : String
  deriving DecidableEq, Repr

/-- The component's terminal result object. -/
structure ServiceResponse where
  message : String
  success : Bool
  data : Option WavsBlsCosmosActionAuth
  deriving DecidableEq, Repr

/-- The network / crypto operations the pipeline performs, in call order;
`broadcastTx` is the only network write. -/
inductive Eff where
  | contractQuery
  | baseAccount
  | blsSign
  | simulateGas
  | broadcastTx
  deriving DecidableEq, Repr

/-- The infusion-record loop of `process_burn_event`: for every query entry
with `count = Some _`, push one `WavsBundle` (burner, entry address, token
id); `None` entries are skipped. -/
def build_infusions (burner token_id : String) (records : List WavsRecordResponse) :
    List WavsBundle :=
  records.foldl
    (fun infusions record =>
      match record.count with
      | some _ => infusions ++ [⟨burner, record.addr, [token_id]⟩]
      | none => infusions)
    []

/-- The one execute-contract message wrapping the whole infusion list. -/
def wavs_entry_point_msg (sender contract : String) (infusions : List WavsBundle) : Any :=
  anyFromMsgExecuteContract ⟨sender, contract, to_json_binary_wavs_entry_point infusions, []⟩

/-- The action bundle `cosmic_wavs_actions` as it stands after the
construction section of `process_burn_event` (`cosmic-wavs-infusion`): one
wrapped execute-contract message when any entry was sanctioned, else empty. -/
def build_cosmic_wavs_actions (sender contract burner token_id : String)
    (records : List WavsRecordResponse) : List Any :=
  let infusions := build_infusions burner token_id records
  if infusions.length > 0 then [wavs_entry_point_msg sender contract infusions] else []

/-- `process_burn_event` of the `cosmic-wavs-infusion` component, starting
after environment/key setup. Network responses (query result, account
number, simulated gas, broadcast code and raw log) are oracle parameters;
the returned trace records the calls actually made, in source order. -/
def process_burn_event (prims : BlsPrimitives) (block_height : Nat)
    (_nft_addr token_id burner : String)
    (wavs_smart_acccount_addr cw_infuser_addr wavs_bls_sk : String)
    (queryResp : List WavsRecordResponse)
    (_account_number gas_used code : Nat) (raw_log : String) :
    RunResult ServiceResponse × List Eff :=
  let infusions := build_infusions burner token_id queryResp
  if infusions.length > 0 then
    let wavs_any_msg := wavs_entry_point_msg wavs_smart_acccount_addr cw_infuser_addr infusions
    let cosmic_wavs_actions := [wavs_any_msg]
    match get_smart_account wavs_bls_sk with
    | .error e => (.error e, [.contractQuery])
    | .panicked m => (.panicked m, [.contractQuery])
    | .ok imported_signer =>
      let msg_digest := action_bundle_digest cosmic_wavs_actions
      let signature := prims.sign imported_signer.sk msg_digest
      let signer_info := get_smart_acount_signer_info (prims.pubkeyBytes imported_signer.sk)
      match form_smart_acccount_tx_body block_height cosmic_wavs_actions [1] with
      | .error e => (.error e, [.contractQuery, .baseAccount, .blsSign])
      | .ok wavs_tx_body =>
        match form_wavs_tx wavs_tx_body gas_used [signer_info] [signature] with
        | .error e => (.error e, [.contractQuery, .baseAccount, .blsSign, .simulateGas])
        | .ok _tx =>
          match handle_tx_response code raw_log with
          | .error e =>
            (.error e, [.contractQuery, .baseAccount, .blsSign, .simulateGas, .broadcastTx])
          | .ok _ =>
            let service_res : WavsBlsCosmosActionAuth :=
              { pubkey_g2 := prims.pubkeyStr imported_signer.sk
              , base64_msg_hash := to_base64 msg_digest
              , msg := []
              , signature := hexEncode signature }
            if code ≠ 0 then
              (.ok ⟨"Infusion record failuter", false, some service_res⟩,
               [.contractQuery, .baseAccount, .blsSign, .simulateGas, .broadcastTx])
            else
              (.ok ⟨"Burn recorded", true, none⟩,
               [.contractQuery, .baseAccount, .blsSign, .simulateGas, .broadcastTx])
  else
    (.ok ⟨"Burn recorded", true, none⟩, [.contractQuery])

/-- Compiled-in constants of the `cosmic-wavs-demo-infusion` component
(lib.rs:53-58). `WAVS_CW_INFUSER` is the query-contract address placeholder;
note the trailing dots are not in the bech32 charset, so it cannot parse. -/
def WAVS_CW_INFUSER : String := "stars1..."

/-- The demo's compiled-in BLS private key: the empty string. -/
def WAVS_BLS_PRIVATE_KEY : String := ""

/-- The demo's compiled-in operator address: the empty string. -/
def WAVS_INFUSER_OPERATOR_ADDR : String := ""

/-- The demo's compiled-in mnemonic environment-variable NAME: the empty
string, which is what `std::env::var` is called with at lib.rs:281. -/
def WAVS_SECP256k1_MNEMONIC : String := ""

/-- `std::env::var` over an environment map. The empty name is never a real
variable — `setenv` rejects an empty name, so `getenv("")`/`env::var("")`
fails in every process whatever the environment holds — hence the lookup of
an empty name is `none` unconditionally. -/
def envVar (env : String → Option String) (name : String) : Option String :=
  if name = "" then none else env name

/-- The transaction body the demo component builds inline
(`cosmic-wavs-demo-infusion` lib.rs:357-367). Unlike
`form_smart_acccount_tx_body`, it takes no height: it hardcodes
`timeout_height = 100` whatever the current block height is, and fixes the
authenticator list to `[1]`. -/
def demo_wavs_broadcast_msg (cosmic_wavs_actions : List Any) : TxBody :=
  { messages := cosmic_wavs_actions
  , memo := "Cosmic Wavs Account Action"
  , timeout_height := 100
  , extension_options := []
  , non_critical_extension_options :=
      [⟨TX_EXTENSION_TYPE, to_json_binary_tx_extension ⟨[1]⟩⟩] }

/-- `process_burn_event` of the `cosmic-wavs-demo-infusion` component. Its
first fallible statement (lib.rs:281-282) reads the fee-payer mnemonic via
`std::env::var(WAVS_SECP256k1_MNEMONIC).expect(..)` — but the compiled-in
variable-NAME constant is the empty string, which no environment binds, so
the `expect` panics before any network call. Everything below lib.rs:282 is
unreachable: in source order, the `SigningClient` setup, the
`Address::new_cosmos_string(WAVS_CW_INFUSER)` parse (which would fail on
the non-bech32 `"stars1..."` before issuing the contract query), the
unguarded bundle push, the empty-key BLS import, and the
`demo_wavs_broadcast_msg` body; none of it is modelled as reachable
behaviour, and the `some` branch below carries a proof of its own
impossibility rather than an invented result. No network oracles are taken
because control never reaches a network call. -/
def demo_process_burn_event (env : String → Option String) (_block_height : Nat)
    (_nft_addr _token_id _burner : String) :
    RunResult ServiceResponse × List Eff :=
  match h : envVar env WAVS_SECP256k1_MNEMONIC with
  | none => (.panicked "Missing 'WAVS_SECP256k1_MNEMONIC' in environment.", [])
  | some _mnemonic => absurd h (by simp [envVar, WAVS_SECP256k1_MNEMONIC])

/-! ## Trigger decode and the `run` entry point's field extraction -/

/-- A Cosmos contract event: type tag and ordered attribute list. -/
structure CosmosEvent where
  ty : String
  attributes : List (String × String)
  deriving DecidableEq, Repr

/-- The Cosmos-contract-event trigger variant. -/
structure TriggerDataCosmosContractEvent where
  contract_address : String
  chain_name : String
  event : CosmosEvent
  block_height : Nat
  deriving DecidableEq, Repr

/-- Output destination of a decoded trigger. -/
inductive Destination where
  | ethereum
  | cosmos
  | cliOutput
  deriving DecidableEq, Repr

/-- The Cosmos branch of `decode_trigger_event` (`cosmic-wavs-infusion`):
on a `wasm` event whose `action` attribute is `burn`, flatten the contract
address bytes, the big-endian token id, the sender bytes and the chain-name
bytes into one payload; anything else falls through to the default. -/
def decode_trigger_event_cosmos (t : TriggerDataCosmosContractEvent) :
    Except String (Nat × List Nat × Destination × Option String) :=
  let event_type := some t.event.ty
  if t.event.ty == "wasm" then
    match t.event.attributes.find? (fun p => p.1 == "action") with
    | some action_attr =>
      if action_attr.2 == "burn" then
        match parse_string_attribute t.event.attributes "sender" with
        | .error e => .error e
        | .ok sender =>
          match parse_u64_attribute t.event.attributes "token_id" with
          | .error e => .error e
          | .ok token_id =>
            let data := strBytes t.contract_address ++ u64be token_id ++
              strBytes sender ++ strBytes t.chain_name
            .ok (t.block_height, data, .cosmos, event_type)
      else
        .ok (0, [], .cosmos, event_type)
    | none => .ok (0, [], .cosmos, event_type)
  else
    .ok (0, [], .cosmos, event_type)

/-- `String::from_utf8(vec![b])`: valid exactly for a single ASCII byte. -/
def string_from_utf8_byte (b : Nat) (errMsg : String) : Except String String :=
  if b < 128 then .ok (String.mk [Char.ofNat b]) else .error errMsg

/-- The burn branch of `run`: each of the four fields is rebuilt from exactly
one byte of the payload (`req[0]` … `req[3]`); an out-of-bounds index is a
panic, an invalid byte is the corresponding deserialization error. -/
def run_extract_burn_fields (req : List Nat) :
    RunResult (String × String × String × String) :=
  match req.get? 0 with
  | none => .panicked "index out of bounds"
  | some b0 =>
    match string_from_utf8_byte b0 "Failed to deserialize nft-address burnt" with
    | .error e => .error e
    | .ok contract_addr =>
      match req.get? 1 with
      | none => .panicked "index out of bounds"
      | some b1 =>
        match string_from_utf8_byte b1 "Failed to deserialize token-id burnt" with
        | .error e => .error e
        | .ok token_id =>
          match req.get? 2 with
          | none => .panicked "index out of bounds"
          | some b2 =>
            match string_from_utf8_byte b2 "Failed to deserialize bundle burner" with
            | .error e => .error e
            | .ok burner =>
              match req.get? 3 with
              | none => .panicked "index out of bounds"
              | some b3 =>
                match string_from_utf8_byte b3 "Failed to deserialize bundle burner" with
                | .error e => .error e
                | .ok chain => .ok (contract_addr, token_id, burner, chain)

/-! ## Helper lemmas -/

/-- The infusion-record loop is a filterMap: one record per `Some` entry,
in response order, `None` entries dropped. -/
theorem build_infusions_foldl_append (burner tid : String)
    (records : List WavsRecordResponse) (acc : List WavsBundle) :
    records.foldl
      (fun infusions record =>
        match record.count with
        | some _ => infusions ++ [⟨burner, record.addr, [tid]⟩]
        | none => infusions) acc =
    acc ++ records.filterMap
      (fun r => r.count.map fun _ => (⟨burner, r.addr, [tid]⟩ : WavsBundle)) := by
  induction records generalizing acc with
  | nil => simp
  | cons hd tl ih =>
    cases h : hd.count with
    | some c => simp [h, ih, List.filterMap_cons]
    | none => simp [h, ih, List.filterMap_cons]

/-- `build_infusions` as a filterMap. -/
theorem build_infusions_eq_filterMap (burner tid : String)
    (records : List WavsRecordResponse) :
    build_infusions burner tid records =
      records.filterMap
        (fun r => r.count.map fun _ => (⟨burner, r.addr, [tid]⟩ : WavsBundle)) := by
  simpa [build_infusions] using build_infusions_foldl_append burner tid records []

/-- When no entry carries a sanctioned count, the infusion list is empty. -/
theorem build_infusions_eq_nil (burner tid : String)
    (records : List WavsRecordResponse)
    (hnone : ∀ r ∈ records, r.count = none) :
    build_infusions burner tid records = [] := by
  rw [build_infusions_eq_filterMap]
  simp only [List.filterMap_eq_nil_iff]
  intro r hr
  rw [hnone r hr]
  rfl

/-- SHA-256 of the "abc" test vector (FIPS 180-2 appendix B.1), checking the
`sha256` embedding against the published digest. -/
theorem sha256_abc :
    sha256 (strBytes "abc") =
      [186, 120, 22, 191, 143, 1, 207, 234, 65, 65, 64, 222, 93, 174, 34, 35,
       176, 3, 97, 163, 150, 23, 122, 156, 180, 16, 255, 97, 242, 0, 21, 173] := by
  decide

/-! ## Claim theorems -/

/-- C1: the digest computation is a pure deterministic function of the
action bundle's byte encoding: byte-identical serialized input yields the
identical digest, and the digest is always exactly 32 bytes of SHA-256
output. Process- or operator-independence is exactly this: the digest is a
mathematical function of the encoded bundle, with no other inputs. -/
theorem action_bundle_digest_deterministic (b1 b2 : List Any)
    (henc : to_json_binary_anys b1 = to_json_binary_anys b2) :
    action_bundle_digest b1 = action_bundle_digest b2 ∧
      (action_bundle_digest b1).length = 32 := by
  constructor
  · unfold action_bundle_digest
    rw [henc]
  · exact sha256_length _

/-- C1 witness: the determinism theorem applied at a concrete one-message
bundle. -/
theorem action_bundle_digest_deterministic_witness :
    to_json_binary_anys [⟨"/cosmwasm.wasm.v1.MsgExecuteContract", [1, 2, 3]⟩] =
        to_json_binary_anys [⟨"/cosmwasm.wasm.v1.MsgExecuteContract", [1, 2, 3]⟩] ∧
      (action_bundle_digest [⟨"/cosmwasm.wasm.v1.MsgExecuteContract", [1, 2, 3]⟩] =
          action_bundle_digest [⟨"/cosmwasm.wasm.v1.MsgExecuteContract", [1, 2, 3]⟩] ∧
        (action_bundle_digest [⟨"/cosmwasm.wasm.v1.MsgExecuteContract", [1, 2, 3]⟩]).length = 32) :=
  ⟨rfl, action_bundle_digest_deterministic _ _ rfl⟩

/-- C5 counterexample: `form_wavs_tx` does NOT reject mismatched-length
signature and signer-info lists — with one signature and zero signer infos
it still assembles and returns an envelope. -/
theorem form_wavs_tx_accepts_mismatched_lengths :
    form_wavs_tx ⟨[], "", 0, [], []⟩ 5 [] [[1]] =
      .ok { body := some ⟨[], "", 0, [], []⟩
          , auth_info := some
              { signer_infos := []
              , fee := some { amount := [⟨"ubtsg", "40000"⟩], gas_limit := 10
                            , payer := "", granter := "" }
              , tip := none }
          , signatures := [[1]] } ∧
      ([[1]] : List (List Nat)).length ≠ ([] : List SignerInfo).length := by
  constructor
  · rfl
  · decide

/-- C5 amended: `form_wavs_tx` performs no validation at all — it always
succeeds and embeds the given signer-info and signature lists verbatim in
the envelope (no truncation, no zero-padding), so the index pairing of the
output is exactly the index pairing of the input lists. -/
theorem form_wavs_tx_embeds_lists_verbatim (tx_body : TxBody) (gas_to_use : Nat)
    (signer_infos : List SignerInfo) (signatures : List (List Nat)) :
    ∀ tx, form_wavs_tx tx_body gas_to_use signer_infos signatures = .ok tx →
      tx.signatures = signatures ∧
        tx.auth_info.map AuthInfo.signer_infos = some signer_infos ∧
        tx.body = some tx_body := by
  intro tx htx
  cases htx
  exact ⟨rfl, rfl, rfl⟩

/-- C5 witness: the verbatim-embedding theorem applied at a concrete
(matched, singleton) input. -/
theorem form_wavs_tx_embeds_lists_verbatim_witness :
    (let tx : Tx :=
      { body := some ⟨[], "", 0, [], []⟩
      , auth_info := some
          { signer_infos := [⟨none, none, 0⟩]
          , fee := some { amount := [⟨"ubtsg", "40000"⟩], gas_limit := 6
                        , payer := "", granter := "" }
          , tip := none }
      , signatures := [[7]] };
     form_wavs_tx ⟨[], "", 0, [], []⟩ 3 [⟨none, none, 0⟩] [[7]] = .ok tx ∧
       (tx.signatures = [[7]] ∧
         tx.auth_info.map AuthInfo.signer_infos = some [⟨none, none, 0⟩] ∧
         tx.body = some (⟨[], "", 0, [], []⟩ : TxBody))) :=
  ⟨rfl, form_wavs_tx_embeds_lists_verbatim ⟨[], "", 0, [], []⟩ 3 [⟨none, none, 0⟩] [[7]] _ rfl⟩

/-- C6: loading a BLS signing identity is total and never panics: for every
input string, `get_smart_account` returns either a signer or an error value;
the malformed-key paths (bad hex, wrong length, out-of-range scalar) all
surface as errors, and the `expect` is unreachable because `Signer::from`
accepts every decode-validated key. -/
theorem get_smart_account_total_never_panics (s : String) :
    (∃ signer, get_smart_account s = .ok signer) ∨
      (∃ e, get_smart_account s = .error e) := by
  cases h1 : hexDecode s with
  | error e => exact .inr ⟨e, by simp [get_smart_account, h1]⟩
  | ok bytes =>
    cases h2 : blsPrivateKeyDecode bytes with
    | error e => exact .inr ⟨e, by simp [get_smart_account, h1, h2]⟩
    | ok key => exact .inl ⟨⟨key⟩, by simp [get_smart_account, h1, h2, blsSignerFrom]⟩

/-- C7 amended (`form_smart_acccount_tx_body`, wavs.rs:93-109): for every
height, bundle and authenticator-id list, the body built by the
(height, bundle, ids) builder has the bundle's messages, the fixed memo,
timeout at height + 100, no extension options, and exactly one non-critical
extension option whose payload is the encoding of the selected
authenticator indices. (The demo component's inline body does not satisfy
this — see the C7 counterexample on `demo_wavs_broadcast_msg`.) -/
theorem form_smart_acccount_tx_body_fields (current_height : Nat)
    (bundle : List Any) (ids : List Nat) :
    ∀ body, form_smart_acccount_tx_body current_height bundle ids = .ok body →
      body.messages = bundle ∧
        body.memo = "Cosmic Wavs Account Action" ∧
        body.timeout_height = current_height + 100 ∧
        body.extension_options = [] ∧
        body.non_critical_extension_options.length = 1 ∧
        body.non_critical_extension_options.getD 0 ⟨"", []⟩ =
          ⟨TX_EXTENSION_TYPE, to_json_binary_tx_extension ⟨ids⟩⟩ := by
  intro body hbody
  cases hbody
  exact ⟨rfl, rfl, rfl, rfl, rfl, rfl⟩

/-- C7 witness: the body-field theorem applied at height 7, a one-message
bundle and authenticator list `[1]`. -/
theorem form_smart_acccount_tx_body_fields_witness :
    (let body : TxBody :=
      { messages := [⟨"/cosmwasm.wasm.v1.MsgExecuteContract", [9]⟩]
      , memo := "Cosmic Wavs Account Action"
      , timeout_height := 107
      , extension_options := []
      , non_critical_extension_options :=
          [⟨TX_EXTENSION_TYPE, to_json_binary_tx_extension ⟨[1]⟩⟩] };
     form_smart_acccount_tx_body 7 [⟨"/cosmwasm.wasm.v1.MsgExecuteContract", [9]⟩] [1] =
         .ok body ∧
       (body.messages = [⟨"/cosmwasm.wasm.v1.MsgExecuteContract", [9]⟩] ∧
         body.memo = "Cosmic Wavs Account Action" ∧
         body.timeout_height = 7 + 100 ∧
         body.extension_options = [] ∧
         body.non_critical_extension_options.length = 1 ∧
         body.non_critical_extension_options.getD 0 ⟨"", []⟩ =
           ⟨TX_EXTENSION_TYPE, to_json_binary_tx_extension ⟨[1]⟩⟩)) :=
  ⟨rfl, form_smart_acccount_tx_body_fields 7 _ [1] _ rfl⟩

/-- C7 counterexample: the demo component's inline transaction-body
construction (`cosmic-wavs-demo-infusion` lib.rs:357-367) hardcodes
`timeout_height = 100`: at the enclosing pipeline's current block height 7
the claim demands timeout 107, but the built body's timeout is 100, and the
authenticator payload is fixed to `[1]` regardless of any selection. -/
theorem demo_tx_body_constant_timeout :
    (demo_wavs_broadcast_msg [⟨"/cosmwasm.wasm.v1.MsgExecuteContract", [9]⟩]).timeout_height
        = 100 ∧
      (100 : Nat) ≠ 7 + 100 ∧
      (demo_wavs_broadcast_msg
          [⟨"/cosmwasm.wasm.v1.MsgExecuteContract", [9]⟩]).non_critical_extension_options =
        [⟨TX_EXTENSION_TYPE, to_json_binary_tx_extension ⟨[1]⟩⟩] := by
  refine ⟨rfl, by decide, rfl⟩

/-- C8: attribute lookup is first-match by key over the ordered list: with
any prefix free of the key, the lookup returns the value of the first pair
carrying the key, so duplicate keys resolve to the first occurrence. -/
theorem parse_string_attribute_first_match
    (pre : List (String × String)) (key v : String) (rest : List (String × String))
    (hpre : ∀ p ∈ pre, p.1 ≠ key) :
    parse_string_attribute (pre ++ (key, v) :: rest) key = .ok v := by
  induction pre with
  | nil =>
    unfold parse_string_attribute
    rw [List.nil_append, List.find?_cons_of_pos _ (by simp)]
  | cons hd tl ih =>
    have hhd : hd.1 ≠ key := hpre hd (by simp)
    have htl : ∀ p ∈ tl, p.1 ≠ key := fun p hp => hpre p (by simp [hp])
    unfold parse_string_attribute at *
    rw [List.cons_append, List.find?_cons_of_neg _ (by simpa using hhd)]
    exact ih htl

/-- C8 witness: with duplicate `sender` keys, the first value wins. -/
theorem parse_string_attribute_first_match_witness :
    (∀ p ∈ ([] : List (String × String)), p.1 ≠ "sender") ∧
      parse_string_attribute [("sender", "A"), ("sender", "B")] "sender" = .ok "A" :=
  ⟨by simp, parse_string_attribute_first_match [] "sender" "A" [("sender", "B")] (by simp)⟩

/-- The infusion list is nonempty exactly when some entry is sanctioned. -/
theorem build_infusions_length_pos_iff (burner tid : String)
    (records : List WavsRecordResponse) :
    0 < (build_infusions burner tid records).length ↔
      records.any (fun r => r.count.isSome) = true := by
  rw [build_infusions_eq_filterMap, List.length_pos, ne_eq, List.filterMap_eq_nil_iff]
  push_neg
  simp [List.any_eq_true, Option.map_eq_none', Option.isSome_iff_ne_none]

/-- C4 counterexample: with two sanctioned query entries, the action bundle
contains a single wrapped execute-contract message, not one message per
entry as the claim states. -/
theorem bundle_single_message_not_per_entry :
    (build_cosmic_wavs_actions "bitsong1smart" "bitsong1infuser" "burner1" "7"
        [⟨"bitsong1a", some 1⟩, ⟨"bitsong1b", some 2⟩]).length = 1 ∧
      ([⟨"bitsong1a", some 1⟩, ⟨"bitsong1b", some 2⟩] :
          List WavsRecordResponse).countP (fun r => r.count.isSome) = 2 ∧
      (1 : Nat) ≠ 2 := by
  refine ⟨rfl, rfl, by decide⟩

/-- C4 amended: per sanctioned query entry, one infusion record (burner,
entry address, token id) is appended, in exactly the query's response order
(a filterMap — never reordered, sorted or deduplicated), and `None` entries
are skipped without error; the bundle itself then carries a single
execute-contract message wrapping the whole ordered list when any entry is
sanctioned, and is empty otherwise. -/
theorem build_action_bundle_order_and_wrapping (sender contract burner token_id : String)
    (records : List WavsRecordResponse) :
    build_infusions burner token_id records =
      records.filterMap
        (fun r => r.count.map fun _ => (⟨burner, r.addr, [token_id]⟩ : WavsBundle)) ∧
      build_cosmic_wavs_actions sender contract burner token_id records =
        (if records.any (fun r => r.count.isSome) then
          [wavs_entry_point_msg sender contract (build_infusions burner token_id records)]
         else []) := by
  refine ⟨build_infusions_eq_filterMap burner token_id records, ?_⟩
  by_cases h : records.any (fun r => r.count.isSome) = true
  · have hpos : 0 < (build_infusions burner token_id records).length :=
      (build_infusions_length_pos_iff burner token_id records).mpr h
    simp [build_cosmic_wavs_actions, h, hpos]
  · have hzero : ¬ 0 < (build_infusions burner token_id records).length := by
      rw [build_infusions_length_pos_iff]; exact h
    simp [build_cosmic_wavs_actions, h, hzero]

/-- C3 amended (the `cosmic-wavs-infusion` component): when no query entry
carries a sanctioned count, the pipeline returns a success response with no
data and its whole call trace is the single read-only contract query — no
signature is computed, and no network write (no broadcast) occurs. -/
theorem process_burn_event_empty_bundle_passthrough (prims : BlsPrimitives)
    (block_height : Nat) (nft_addr token_id burner saddr infuser sk : String)
    (queryResp : List WavsRecordResponse) (acct gas code : Nat) (raw_log : String)
    (hnone : ∀ r ∈ queryResp, r.count = none) :
    process_burn_event prims block_height nft_addr token_id burner saddr infuser sk
        queryResp acct gas code raw_log =
      (.ok ⟨"Burn recorded", true, none⟩, [.contractQuery]) := by
  have h := build_infusions_eq_nil burner token_id queryResp hnone
  simp [process_burn_event, h]

/-- C3 witness: the pass-through theorem applied at a concrete burn event
whose single query entry has no sanctioned count. -/
theorem process_burn_event_empty_bundle_passthrough_witness :
    (∀ r ∈ ([⟨"bitsong1abc", none⟩] : List WavsRecordResponse), r.count = none) ∧
      process_burn_event ⟨fun _ _ => [], fun _ => [], fun _ => ""⟩ 7 "nft1abc" "42"
          "cosmos1xyz" "bitsong1smart" "bitsong1infuser" "00aa"
          [⟨"bitsong1abc", none⟩] 1 80000 0 "" =
        (.ok ⟨"Burn recorded", true, none⟩, [.contractQuery]) :=
  ⟨by decide,
   process_burn_event_empty_bundle_passthrough ⟨fun _ _ => [], fun _ => [], fun _ => ""⟩
     7 "nft1abc" "42" "cosmos1xyz" "bitsong1smart" "bitsong1infuser" "00aa"
     [⟨"bitsong1abc", none⟩] 1 80000 0 "" (by decide)⟩

/-- C3 counterexample (the demo component): `cosmic-wavs-demo-infusion`
never produces the claimed success:true result for any burn event — even
under an environment that binds every (nonempty) variable name, its
`process_burn_event` panics at the very first statement, the `expect` on
`std::env::var` of the compiled-in empty-string variable name, before any
query, signing or broadcast (the effect trace is empty). -/
theorem demo_empty_bundle_not_success :
    demo_process_burn_event (fun _ => some "test mnemonic") 7 "nft1abc" "42"
        "cosmos1xyz" =
      (.panicked "Missing 'WAVS_SECP256k1_MNEMONIC' in environment.", []) := by
  rfl

/-- C2: at a concrete cycle whose broadcast returns code 5, the pipeline
does NOT return a `ServiceResponse` with `success = false` carrying the
signed-digest summary: `handle_tx_response`'s error is propagated by the
`?` operator at the call site, so `process_burn_event` returns an error and
the summary (and the unreachable success:false branch below the call) is
discarded. -/
theorem broadcast_failure_becomes_error_not_response :
    process_burn_event ⟨fun _ _ => [], fun _ => [], fun _ => ""⟩ 7 "nft1abc" "42"
        "cosmos1xyz" "bitsong1smart" "bitsong1infuser"
        "0000000000000000000000000000000000000000000000000000000000000001"
        [⟨"bitsong1abc", some 3⟩] 1 80000 5 "out of gas" =
      (.error "Transaction failed with code 5: out of gas",
       [.contractQuery, .baseAccount, .blsSign, .simulateGas, .broadcastTx]) := by
  rfl

/-- C9: looking up a missing key does NOT produce an error naming that key:
whatever key is requested (here `token_id`, and with or without other
attributes present), the error is the hardcoded `Missing sender attribute`. -/
theorem parse_string_attribute_fixed_error_message :
    parse_string_attribute [] "token_id" = .error "Missing sender attribute" ∧
      parse_string_attribute [("action", "burn")] "token_id" =
        .error "Missing sender attribute" ∧
      "Missing sender attribute" ≠ "Missing token_id attribute" := by
  refine ⟨rfl, rfl, by decide⟩

/-- C10: for every Cosmos burn trigger event, the decode step flattens the
collection address bytes, the 8-byte big-endian token id, the sender bytes
and the chain-name bytes into one concatenated payload, and the `run` entry
point rebuilds each of the four burn fields from exactly one byte of that
payload (indices 0–3): with an address of at least four (ASCII) characters,
all four reconstructed fields are one-character strings taken from the
start of the address, and in particular the reconstructed collection
address is not the original address. -/
theorem run_reconstructs_fields_from_single_bytes
    (t : TriggerDataCosmosContractEvent) (sender : String) (token_id : Nat)
    (c0 c1 c2 c3 : Char) (rest : List Char)
    (hty : t.event.ty = "wasm")
    (haction : t.event.attributes.find? (fun p => p.1 == "action") = some ("action", "burn"))
    (hsender : parse_string_attribute t.event.attributes "sender" = .ok sender)
    (htoken : parse_u64_attribute t.event.attributes "token_id" = .ok token_id)
    (haddr : t.contract_address.data = c0 :: c1 :: c2 :: c3 :: rest)
    (h0 : c0.toNat < 128) (h1 : c1.toNat < 128) (h2 : c2.toNat < 128)
    (h3 : c3.toNat < 128) :
    decode_trigger_event_cosmos t =
      .ok (t.block_height,
        strBytes t.contract_address ++ u64be token_id ++ strBytes sender ++
          strBytes t.chain_name, .cosmos, some "wasm") ∧
      run_extract_burn_fields (strBytes t.contract_address ++ u64be token_id ++
          strBytes sender ++ strBytes t.chain_name) =
        .ok (String.mk [c0], String.mk [c1], String.mk [c2], String.mk [c3]) ∧
      String.mk [c0] ≠ t.contract_address := by
  have hbytes : strBytes t.contract_address =
      c0.toNat :: c1.toNat :: c2.toNat :: c3.toNat :: rest.map Char.toNat := by
    simp [strBytes, haddr]
  refine ⟨?_, ?_, ?_⟩
  · simp [decode_trigger_event_cosmos, hty, haction, hsender, htoken]
  · simp [hbytes, run_extract_burn_fields, string_from_utf8_byte, h0, h1, h2, h3]
  · intro heq
    have hdata := congrArg String.data heq
    simp [haddr] at hdata

/-- C10 witness: the one-byte-reconstruction theorem applied at a concrete
burn event for collection `nft1abc`, token 42, sender `cosmos1xyz` on chain
`layer-local`: every reconstructed field is a one-character slice of the
collection address. -/
theorem run_reconstructs_fields_from_single_bytes_witness :
    ((⟨"nft1abc", "layer-local",
        ⟨"wasm", [("action", "burn"), ("sender", "cosmos1xyz"), ("token_id", "42")]⟩,
        7⟩ : TriggerDataCosmosContractEvent).event.ty = "wasm" ∧
      ([("action", "burn"), ("sender", "cosmos1xyz"), ("token_id", "42")] :
          List (String × String)).find? (fun p => p.1 == "action") =
        some ("action", "burn") ∧
      parse_string_attribute
          [("action", "burn"), ("sender", "cosmos1xyz"), ("token_id", "42")] "sender" =
        .ok "cosmos1xyz" ∧
      parse_u64_attribute
          [("action", "burn"), ("sender", "cosmos1xyz"), ("token_id", "42")] "token_id" =
        .ok 42 ∧
      "nft1abc".data = 'n' :: 'f' :: 't' :: '1' :: ['a', 'b', 'c'] ∧
      'n'.toNat < 128 ∧ 'f'.toNat < 128 ∧ 't'.toNat < 128 ∧ '1'.toNat < 128) ∧
      (decode_trigger_event_cosmos
          ⟨"nft1abc", "layer-local",
            ⟨"wasm", [("action", "burn"), ("sender", "cosmos1xyz"), ("token_id", "42")]⟩, 7⟩ =
        .ok (7, strBytes "nft1abc" ++ u64be 42 ++ strBytes "cosmos1xyz" ++
          strBytes "layer-local", .cosmos, some "wasm") ∧
        run_extract_burn_fields (strBytes "nft1abc" ++ u64be 42 ++
            strBytes "cosmos1xyz" ++ strBytes "layer-local") =
          .ok (String.mk ['n'], String.mk ['f'], String.mk ['t'], String.mk ['1']) ∧
        String.mk ['n'] ≠ "nft1abc") :=
  ⟨⟨rfl, rfl, rfl, rfl, rfl, by decide, by decide, by decide, by decide⟩,
   run_reconstructs_fields_from_single_bytes
     ⟨"nft1abc", "layer-local",
       ⟨"wasm", [("action", "burn"), ("sender", "cosmos1xyz"), ("token_id", "42")]⟩, 7⟩
     "cosmos1xyz" 42 'n' 'f' 't' '1' ['a', 'b', 'c'] rfl rfl rfl
     rfl rfl (by decide) (by decide) (by decide) (by decide)⟩

end CosmicWavs
